import Mathlib

/-!
Verification of the victim-orchestration core of the sponge-poisoning
repository: a shallow embedding of `forest/victims/victim_base.py`
(`_VictimBase`). Pure data flow is translated directly; calls to the
backend hooks (`initialize`, `save_feature_representation`, …, and the
`_iterate` epoch loop), which the base class leaves abstract, are recorded
as an ordered event trace, and the statistics `_iterate` returns are an
oracle `iter : Nat → Stats` indexed by the order of `_iterate` calls
within one method. Raised `ValueError`s become `Except.error` values
paired with the trace of backend calls made before the raise.
-/

namespace SpongeVictim

/-- `RunStatistics`: a Python dict from metric name to scalar, in
iteration order; scalars are embedded as rationals. -/
abbrev Stats := List (String × Rat)

/-- The poison-delta slot of `_iterate`: Python `None` (clean training),
the sentinel string "sponge", or an opaque brewed perturbation. -/
inductive PoisonDelta where
  | clean : PoisonDelta
  | sponge : PoisonDelta
  | brewed : Nat → PoisonDelta
deriving DecidableEq

/-- One backend-hook call made by a `_VictimBase` method, in the order
performed. `initCall seed pretrain` stands for `self.initialize(...)`;
`iterateCall delta max_epoch pretraining_phase` stands for
`self._iterate(kettle, poison_delta=delta, ...)`. -/
inductive Event where
  | initCall : Option Nat → Bool → Event
  | save_feature_representation : Event
  | load_feature_representation : Event
  | freeze_feature_extractor : Event
  | reinitialize_last_layer : Rat → Option Nat → Bool → Event
  | iterateCall : PoisonDelta → Option Nat → Bool → Event
deriving DecidableEq

/-- The errors the embedded methods can signal: the constructor's
`ValueError` (more models than ensemble size), the three scenario
`ValueError`s, and the aggregation failure of the stats averaging. -/
inductive VictimError where
  | configurationError : VictimError
  | scenarioError : String → VictimError
  | aggregationError : VictimError
deriving DecidableEq

/-- The fields of `self.args` that `_VictimBase` reads. -/
structure Args where
  ensemble : Nat
  net : List String
  scenario : String
  dataset : String
  pretrain_dataset : Option String
  pretrained_model : Bool
  vruns : Nat
deriving DecidableEq

/-- The key list of a statistics dictionary. -/
def keyList (s : Stats) : List String := s.map Prod.fst

/-- The scalar stored at position `i` of a statistics dictionary
(0 outside it). -/
def valueAt (s : Stats) (i : Nat) : Rat := ((s[i]?).map Prod.snd).getD 0

/-- Key-wise arithmetic mean at position `i` over a list of statistics
dictionaries. -/
def meanAt (l : List Stats) (i : Nat) : Rat :=
  (l.map fun d => valueAt d i).sum / (l.length : Rat)

/-- Modelled from the spec: `average_dicts` (the StatsAggregator of
`forest/utils.py`, which is not among the repository files given):
key-wise arithmetic mean of a non-empty list of statistics dictionaries
with identical key sets; an empty list or differing key sets fail with
the aggregation error. -/
def average_dicts : List Stats → Except VictimError Stats
  | [] => Except.error VictimError.aggregationError
  | s :: rest =>
    if ∀ t ∈ rest, keyList t = keyList s then
      Except.ok ((List.range s.length).map fun i =>
        ((keyList s).getD i "", meanAt (s :: rest) i))
    else Except.error VictimError.aggregationError

/-- `_VictimBase.__init__`: the ensemble-size check
(`self.args.ensemble < len(self.args.net)`), then the single
`self.initialize(pretrain=True if self.args.pretrain_dataset is not None
else False)` call. -/
def victimBaseInit (args : Args) : List Event × Except VictimError Unit :=
  if args.ensemble < args.net.length then
    ([], Except.error VictimError.configurationError)
  else
    ([Event.initCall none args.pretrain_dataset.isSome], Except.ok ())

/-- `_VictimBase.train`: clean training, dispatching on
`self.args.scenario`. -/
def train (args : Args) (model_init_seed : Nat) (max_epoch : Option Nat)
    (iter : Nat → Stats) : List Event × Except VictimError Stats :=
  if args.scenario = "from-scratch" then
    ([Event.iterateCall PoisonDelta.clean max_epoch args.pretrain_dataset.isSome,
      Event.save_feature_representation], Except.ok (iter 0))
  else if args.scenario ∈ ["transfer"] then
    ([Event.save_feature_representation, Event.freeze_feature_extractor,
      Event.reinitialize_last_layer 1 (some model_init_seed) true,
      Event.iterateCall PoisonDelta.clean max_epoch false], Except.ok (iter 0))
  else
    ([], Except.error (VictimError.scenarioError "Invalid train scenario."))

/-- `_VictimBase.retrain`: translated with the source's exact branch
structure — an `if` for from-scratch (re-`initialize` from the recorded
seed), then a separate `if transfer ... else raise`. A raise returns the
events performed before it together with the error. -/
def retrain (args : Args) (model_init_seed : Nat) (poison_delta : PoisonDelta)
    (max_epoch : Option Nat) (iter : Nat → Stats) :
    List Event × Except VictimError Stats :=
  let pre : List Event :=
    if args.scenario = "from-scratch" then [Event.initCall (some model_init_seed) false]
    else []
  if args.scenario = "transfer" then
    (pre ++ [Event.load_feature_representation, Event.freeze_feature_extractor,
             Event.reinitialize_last_layer 1 (some model_init_seed) true,
             Event.iterateCall poison_delta max_epoch false],
     Except.ok (iter 0))
  else
    (pre, Except.error (VictimError.scenarioError "Invalid retrain scenario"))

/-- One body of the `for runs in range(self.args.vruns)` loop of
`_VictimBase.validate`: the scenario-dependent re-derivation, then the
`_iterate` call whose statistics are appended. -/
def validateBody (args : Args) (poison_delta : PoisonDelta)
    (val_max_epoch : Option Nat) (iter : Nat → Stats) (r : Nat) :
    Except VictimError (List Event × Stats) :=
  if args.scenario = "from-scratch" then
    Except.ok ([Event.initCall none false,
                Event.iterateCall poison_delta val_max_epoch false], iter r)
  else if args.scenario = "transfer" then
    Except.ok ([Event.load_feature_representation, Event.freeze_feature_extractor,
                Event.reinitialize_last_layer 1 none true,
                Event.iterateCall poison_delta val_max_epoch false], iter r)
  else
    Except.error (VictimError.scenarioError "Invalid validation scenario")

/-- The loop of `_VictimBase.validate`: `n` iterations left, `r` the
current run index; accumulates the trace and the `run_stats` list, and a
raise keeps the trace of the completed runs. -/
def validateAux (args : Args) (poison_delta : PoisonDelta)
    (val_max_epoch : Option Nat) (iter : Nat → Stats) :
    Nat → Nat → List Event × Except VictimError (List Stats)
  | 0, _ => ([], Except.ok [])
  | n + 1, r =>
    match validateBody args poison_delta val_max_epoch iter r with
    | Except.error e => ([], Except.error e)
    | Except.ok (evs, s) =>
      match validateAux args poison_delta val_max_epoch iter n (r + 1) with
      | (tr, Except.error e) => (evs ++ tr, Except.error e)
      | (tr, Except.ok rest) => (evs ++ tr, Except.ok (s :: rest))

/-- `_VictimBase.validate`: the loop, then `average_dicts(run_stats)`. -/
def validate (args : Args) (poison_delta : PoisonDelta)
    (val_max_epoch : Option Nat) (iter : Nat → Stats) :
    List Event × Except VictimError Stats :=
  match validateAux args poison_delta val_max_epoch iter args.vruns 0 with
  | (tr, Except.error e) => (tr, Except.error e)
  | (tr, Except.ok run_stats) => (tr, average_dicts run_stats)

/-- `_VictimBase.sponge_train`: `_iterate` with the poison-delta slot
fixed to the sponge sentinel, then `save_feature_representation`,
returning the loop's statistics. -/
def sponge_train (args : Args) (max_epoch : Option Nat) (iter : Nat → Stats) :
    List Event × Except VictimError Stats :=
  ([Event.iterateCall PoisonDelta.sponge max_epoch false,
    Event.save_feature_representation], Except.ok (iter 0))

/-- `_VictimBase.distributed_control`: the single-process default,
returning its four arguments and `randgen = None`. -/
def distributed_control {A B C D : Type} (inputs : A) (labels : B)
    (poison_slices : C) (batch_positions : D) : A × B × C × D × Option Unit :=
  let randgen : Option Unit := none
  (inputs, labels, poison_slices, batch_positions, randgen)

/-- `_VictimBase.sync_gradients`: the single-process default, the
identity. -/
def sync_gradients {A : Type} (input : A) : A := input

/-- The record of one `get_model(model_name, dataset, pretrained=...)`
call made by `_initialize_model`. -/
structure ModelBuild where
  model_name : String
  dataset : String
  pretrained : Bool
deriving DecidableEq

/-- `_VictimBase._initialize_model`: the dataset choice for the model
build. The conditional selecting `args.pretrain_dataset` is commented out
in the source (it sits inside a string literal spanning lines 177-181),
so the executed body always reads `self.args.dataset`. -/
def _initialize_model (args : Args) (model_name : String) (pretrain : Bool) :
    ModelBuild :=
  let dataset := args.dataset
  { model_name := model_name, dataset := dataset,
    pretrained := args.pretrained_model }

/-- The backend calls one loop body of `validate` performs when the
scenario is one of the two supported ones. -/
def validateRunEvents (args : Args) (poison_delta : PoisonDelta)
    (val_max_epoch : Option Nat) : List Event :=
  (if args.scenario = "from-scratch" then [Event.initCall none false]
   else [Event.load_feature_representation, Event.freeze_feature_extractor,
         Event.reinitialize_last_layer 1 none true]) ++
  [Event.iterateCall poison_delta val_max_epoch false]

/-- Whether an event is an invocation of the `_iterate` epoch loop. -/
def isIterateEvent : Event → Bool
  | Event.iterateCall _ _ _ => true
  | _ => false

/-- A concrete statistics oracle for witnesses: run `r` reports loss `r`. -/
def iterEx : Nat → Stats := fun r => [("loss", (r : Rat))]

/-- A concrete from-scratch configuration for witnesses. -/
def argsFS : Args :=
  { ensemble := 1, net := ["ResNet18"], scenario := "from-scratch",
    dataset := "CIFAR10", pretrain_dataset := none,
    pretrained_model := false, vruns := 2 }

/-- A concrete transfer configuration for witnesses. -/
def argsTR : Args := { argsFS with scenario := "transfer" }

/-- A concrete configuration with an unsupported scenario string. -/
def argsBad : Args := { argsFS with scenario := "invalid", vruns := 1 }

/-- A concrete configuration with a pretrain dataset configured. -/
def argsPre : Args := { argsFS with pretrain_dataset := some "ImageNet" }

/-- A concrete configuration with an unsupported scenario string and a
run count of zero. -/
def argsBad0 : Args := { argsFS with scenario := "invalid", vruns := 0 }

/-- C6: `sponge_train` runs the iteration loop with the poison-delta slot
fixed to the sponge sentinel, then calls `save_feature_representation`,
and returns the loop's statistics. -/
theorem sponge_train_runs_sponge_then_saves (args : Args)
    (max_epoch : Option Nat) (iter : Nat → Stats) :
    sponge_train args max_epoch iter =
      ([Event.iterateCall PoisonDelta.sponge max_epoch false,
        Event.save_feature_representation], Except.ok (iter 0)) := rfl

/-- C7: in the single-process default, `distributed_control` returns its
four arguments unchanged in order followed by a null random-generator
handle, and `sync_gradients` is the identity. -/
theorem distributed_control_sync_gradients_identity
    {A B C D : Type} (inputs : A) (labels : B) (poison_slices : C)
    (batch_positions : D) (x : A) :
    distributed_control inputs labels poison_slices batch_positions =
      (inputs, labels, poison_slices, batch_positions, (none : Option Unit)) ∧
    sync_gradients x = x :=
  ⟨rfl, rfl⟩

/-- C10: `sponge_train` performs no scenario validation: whatever the
configured scenario, it invokes the iteration loop exactly once and never
returns an error (in particular no scenario error). -/
theorem sponge_train_never_checks_scenario (args : Args)
    (max_epoch : Option Nat) (iter : Nat → Stats) :
    ((sponge_train args max_epoch iter).1.countP isIterateEvent = 1) ∧
    ∀ e : VictimError, (sponge_train args max_epoch iter).2 ≠ Except.error e :=
  ⟨rfl, fun _ h => Except.noConfusion h⟩

/-- C5 amended: `_initialize_model` always builds the model against the
main dataset, ignoring the `pretrain` flag and the configured pretrain
dataset (the selecting conditional is commented out in the source). -/
theorem initialize_model_uses_main_dataset (args : Args)
    (model_name : String) (pretrain : Bool) :
    _initialize_model args model_name pretrain =
      { model_name := model_name, dataset := args.dataset,
        pretrained := args.pretrained_model } := rfl

/-- C5 counterexample: with `pretrain = true` and pretrain dataset
"ImageNet" configured, the model is still built against the main dataset
"CIFAR10", refuting the claimed dataset selection. -/
theorem initialize_model_pretrain_ignored :
    argsPre.pretrain_dataset = some "ImageNet" ∧
    (_initialize_model argsPre "ResNet18" true).dataset = "CIFAR10" ∧
    ("CIFAR10" : String) ≠ "ImageNet" :=
  ⟨rfl, rfl, by decide⟩

/-- C1: the claim fails on the code at scenario "from-scratch": `retrain`
re-derives the model from the recorded initialization seed and then
raises `ValueError('Invalid retrain scenario')`, because the transfer
check is an independent `if`/`else` rather than an `elif`; the claimed
"returns the statistics without raising" is violated. -/
theorem retrain_from_scratch_raises :
    retrain argsFS 7 (PoisonDelta.brewed 0) none iterEx =
      ([Event.initCall (some 7) false],
       Except.error (VictimError.scenarioError "Invalid retrain scenario")) := by
  rfl

/-- C4: `train` dispatches on the scenario: from-scratch runs the
iteration loop cleanly (pretraining phase iff a pretrain dataset is
configured) and then saves the feature representation; transfer saves,
freezes the extractor, re-heads seeded with the recorded seed and
`keep_last_layer = true`, and only then iterates; anything else raises
the scenario error. -/
theorem train_dispatches_on_scenario (args : Args) (model_init_seed : Nat)
    (max_epoch : Option Nat) (iter : Nat → Stats) :
    (args.scenario = "from-scratch" →
      train args model_init_seed max_epoch iter =
        ([Event.iterateCall PoisonDelta.clean max_epoch
            args.pretrain_dataset.isSome,
          Event.save_feature_representation], Except.ok (iter 0))) ∧
    (args.scenario = "transfer" →
      train args model_init_seed max_epoch iter =
        ([Event.save_feature_representation, Event.freeze_feature_extractor,
          Event.reinitialize_last_layer 1 (some model_init_seed) true,
          Event.iterateCall PoisonDelta.clean max_epoch false],
         Except.ok (iter 0))) ∧
    (args.scenario ≠ "from-scratch" → args.scenario ≠ "transfer" →
      train args model_init_seed max_epoch iter =
        ([], Except.error (VictimError.scenarioError "Invalid train scenario."))) := by
  refine ⟨fun h => ?_, fun h => ?_, fun h1 h2 => ?_⟩
  · simp [train, h]
  · simp [train, h]
  · simp [train, h1, h2]

/-- C4 witness: the three branches of `train_dispatches_on_scenario`
evaluated on concrete configurations. -/
theorem train_dispatches_on_scenario_witness :
    train argsFS 7 none iterEx =
      ([Event.iterateCall PoisonDelta.clean none false,
        Event.save_feature_representation], Except.ok [("loss", 0)]) ∧
    train argsTR 7 none iterEx =
      ([Event.save_feature_representation, Event.freeze_feature_extractor,
        Event.reinitialize_last_layer 1 (some 7) true,
        Event.iterateCall PoisonDelta.clean none false],
       Except.ok [("loss", 0)]) ∧
    train argsBad 7 none iterEx =
      ([], Except.error (VictimError.scenarioError "Invalid train scenario.")) := by
  refine ⟨?_, ?_, ?_⟩
  · have h := (train_dispatches_on_scenario argsFS 7 none iterEx).1 rfl
    simpa [argsFS, iterEx] using h
  · have h := (train_dispatches_on_scenario argsTR 7 none iterEx).2.1 rfl
    simpa [argsTR, argsFS, iterEx] using h
  · exact (train_dispatches_on_scenario argsBad 7 none iterEx).2.2
      (by decide) (by decide)

/-- C9 theorem: when the ensemble check passes, the constructor performs
exactly one `initialize` call, with the pretrain flag true iff a pretrain
dataset is configured. -/
theorem constructor_initializes_once (args : Args)
    (h : args.net.length ≤ args.ensemble) :
    victimBaseInit args =
      ([Event.initCall none args.pretrain_dataset.isSome], Except.ok ()) := by
  unfold victimBaseInit
  rw [if_neg (Nat.not_lt.mpr h)]

/-- C9 witness: the constructor evaluated on a concrete configuration
with a pretrain dataset configured. -/
theorem constructor_initializes_once_witness :
    argsPre.net.length ≤ argsPre.ensemble ∧
    victimBaseInit argsPre = ([Event.initCall none true], Except.ok ()) := by
  refine ⟨by decide, ?_⟩
  have h := constructor_initializes_once argsPre (by decide)
  simpa [argsPre, argsFS] using h

/-- `validateBody` can only raise the validation scenario error. -/
theorem validateBody_error_eq (args : Args) (poison_delta : PoisonDelta)
    (val_max_epoch : Option Nat) (iter : Nat → Stats) (r : Nat)
    (e : VictimError)
    (h : validateBody args poison_delta val_max_epoch iter r = Except.error e) :
    e = VictimError.scenarioError "Invalid validation scenario" := by
  unfold validateBody at h
  split at h
  · exact Except.noConfusion h
  · split at h
    · exact Except.noConfusion h
    · exact (Except.error.inj h).symm

/-- The validate loop can only raise the validation scenario error. -/
theorem validateAux_error_eq (args : Args) (poison_delta : PoisonDelta)
    (val_max_epoch : Option Nat) (iter : Nat → Stats) :
    ∀ n r e,
      (validateAux args poison_delta val_max_epoch iter n r).2 = Except.error e →
      e = VictimError.scenarioError "Invalid validation scenario" := by
  intro n
  induction n with
  | zero =>
    intro r e h
    simp [validateAux] at h
  | succ n ih =>
    intro r e h
    rw [validateAux] at h
    rcases hb : validateBody args poison_delta val_max_epoch iter r with eb | ⟨evs, s⟩ <;>
      rw [hb] at h
    · simp at h
      exact h ▸ validateBody_error_eq args poison_delta val_max_epoch iter r eb hb
    · rcases ha : validateAux args poison_delta val_max_epoch iter n (r + 1) with ⟨tr, res⟩
      rw [ha] at h
      cases res with
      | error e' =>
        simp at h
        have : (validateAux args poison_delta val_max_epoch iter n (r + 1)).2 =
            Except.error e' := by rw [ha]
        exact h ▸ ih (r + 1) e' this
      | ok rest => simp at h

/-- `average_dicts` can only fail with the aggregation error. -/
theorem average_dicts_error_eq (l : List Stats) (e : VictimError)
    (h : average_dicts l = Except.error e) :
    e = VictimError.aggregationError := by
  match l with
  | [] =>
    simp only [average_dicts] at h
    exact (Except.error.inj h).symm
  | s :: rest =>
    simp only [average_dicts] at h
    split at h
    · exact Except.noConfusion h
    · exact (Except.error.inj h).symm

/-- C3: the orchestrator constructor fails with the configuration error
iff more models are requested than the ensemble size; none of the later
entry points (`train`, `retrain`, `validate`, `sponge_train`) can ever
produce that error, for any configuration — the check happens once, at
construction. -/
theorem configuration_checked_once (args : Args) (model_init_seed : Nat)
    (poison_delta : PoisonDelta) (max_epoch val_max_epoch : Option Nat)
    (iter : Nat → Stats) :
    ((victimBaseInit args).2 = Except.error VictimError.configurationError ↔
      args.ensemble < args.net.length) ∧
    (train args model_init_seed max_epoch iter).2 ≠
      Except.error VictimError.configurationError ∧
    (retrain args model_init_seed poison_delta max_epoch iter).2 ≠
      Except.error VictimError.configurationError ∧
    (validate args poison_delta val_max_epoch iter).2 ≠
      Except.error VictimError.configurationError ∧
    (sponge_train args max_epoch iter).2 ≠
      Except.error VictimError.configurationError := by
  refine ⟨?_, ?_, ?_, ?_, ?_⟩
  · unfold victimBaseInit
    split
    · simpa
    · next h => simpa using Nat.not_lt.mp h
  · unfold train
    split
    · simp
    · split <;> simp
  · unfold retrain
    split <;> split <;> simp
  · intro h
    unfold validate at h
    rcases ha : validateAux args poison_delta val_max_epoch iter args.vruns 0 with ⟨tr, res⟩
    rw [ha] at h
    cases res with
    | error e =>
      simp at h
      have he : (validateAux args poison_delta val_max_epoch iter args.vruns 0).2 =
          Except.error e := by rw [ha]
      have := validateAux_error_eq args poison_delta val_max_epoch iter args.vruns 0 e he
      rw [this] at h
      exact VictimError.noConfusion h
    | ok run_stats =>
      simp at h
      have := average_dicts_error_eq run_stats _ h
      exact VictimError.noConfusion this
  · exact fun h => Except.noConfusion h

/-- C8 amended: for a scenario outside the two supported values, `train`
and `retrain` raise their scenario error, and so does `validate` provided
the configured run count is positive (with zero runs its loop body never
executes, so the scenario check is never reached); in each case the
backend-call trace is empty — no re-initialization, feature save/load,
freezing or iteration happens, so the existing state is left
untouched. -/
theorem invalid_scenario_raises_before_any_state_change (args : Args)
    (model_init_seed : Nat) (poison_delta : PoisonDelta)
    (max_epoch val_max_epoch : Option Nat) (iter : Nat → Stats)
    (h1 : args.scenario ≠ "from-scratch") (h2 : args.scenario ≠ "transfer")
    (hv : 0 < args.vruns) :
    train args model_init_seed max_epoch iter =
      ([], Except.error (VictimError.scenarioError "Invalid train scenario.")) ∧
    retrain args model_init_seed poison_delta max_epoch iter =
      ([], Except.error (VictimError.scenarioError "Invalid retrain scenario")) ∧
    validate args poison_delta val_max_epoch iter =
      ([], Except.error (VictimError.scenarioError "Invalid validation scenario")) := by
  obtain ⟨m, hm⟩ : ∃ m, args.vruns = m + 1 :=
    ⟨args.vruns - 1, (Nat.succ_pred_eq_of_pos hv).symm⟩
  have hb : validateBody args poison_delta val_max_epoch iter 0 =
      Except.error (VictimError.scenarioError "Invalid validation scenario") := by
    simp [validateBody, h1, h2]
  refine ⟨by simp [train, h1, h2], by simp [retrain, h1, h2], ?_⟩
  unfold validate
  rw [hm, validateAux, hb]

/-- C8 counterexample: with scenario "invalid" and a configured run count
of zero, `validate` raises no scenario error at all — the loop body never
runs, so the scenario check is never reached, and the call ends in the
empty-list aggregation failure instead; the claim's unconditional
"validate raises InvalidScenarioError" is false at this input. -/
theorem invalid_scenario_zero_runs_no_scenario_error :
    argsBad0.scenario = "invalid" ∧ argsBad0.vruns = 0 ∧
    validate argsBad0 (PoisonDelta.brewed 0) none iterEx =
      ([], Except.error VictimError.aggregationError) ∧
    (validate argsBad0 (PoisonDelta.brewed 0) none iterEx).2 ≠
      Except.error (VictimError.scenarioError "Invalid validation scenario") := by
  exact ⟨rfl, rfl, rfl, fun h => VictimError.noConfusion (Except.error.inj h)⟩

/-- C8 witness: the three entry points evaluated on the concrete
configuration with scenario "invalid" and one validation run. -/
theorem invalid_scenario_witness :
    argsBad.scenario ≠ "from-scratch" ∧ argsBad.scenario ≠ "transfer" ∧
    0 < argsBad.vruns ∧
    (train argsBad 7 none iterEx =
      ([], Except.error (VictimError.scenarioError "Invalid train scenario.")) ∧
    retrain argsBad 7 (PoisonDelta.brewed 0) none iterEx =
      ([], Except.error (VictimError.scenarioError "Invalid retrain scenario")) ∧
    validate argsBad (PoisonDelta.brewed 0) none iterEx =
      ([], Except.error (VictimError.scenarioError "Invalid validation scenario"))) :=
  ⟨by decide, by decide, by decide,
   invalid_scenario_raises_before_any_state_change argsBad 7 (PoisonDelta.brewed 0)
     none none iterEx (by decide) (by decide) (by decide)⟩

/-- On a supported scenario the loop body never raises: it performs the
scenario-dependent re-derivation and one `_iterate` call. -/
theorem validateBody_valid (args : Args) (poison_delta : PoisonDelta)
    (val_max_epoch : Option Nat) (iter : Nat → Stats) (r : Nat)
    (h : args.scenario = "from-scratch" ∨ args.scenario = "transfer") :
    validateBody args poison_delta val_max_epoch iter r =
      Except.ok (validateRunEvents args poison_delta val_max_epoch, iter r) := by
  rcases h with h | h <;> simp [validateBody, validateRunEvents, h]

/-- On a supported scenario the validate loop performs its body once per
remaining run and collects the per-run statistics in order. -/
theorem validateAux_valid (args : Args) (poison_delta : PoisonDelta)
    (val_max_epoch : Option Nat) (iter : Nat → Stats)
    (h : args.scenario = "from-scratch" ∨ args.scenario = "transfer") :
    ∀ n r, validateAux args poison_delta val_max_epoch iter n r =
      ((List.range' r n).flatMap fun _ =>
        validateRunEvents args poison_delta val_max_epoch,
       Except.ok ((List.range' r n).map iter)) := by
  intro n
  induction n with
  | zero => intro r; simp [validateAux]
  | succ n ih =>
    intro r
    rw [validateAux, validateBody_valid args poison_delta val_max_epoch iter r h,
      ih (r + 1), List.range'_succ]
    simp

/-- On a supported scenario, `validate` is the concatenated per-run trace
followed by the aggregation of the collected statistics. -/
theorem validate_valid (args : Args) (poison_delta : PoisonDelta)
    (val_max_epoch : Option Nat) (iter : Nat → Stats)
    (h : args.scenario = "from-scratch" ∨ args.scenario = "transfer") :
    validate args poison_delta val_max_epoch iter =
      ((List.range args.vruns).flatMap fun _ =>
        validateRunEvents args poison_delta val_max_epoch,
       average_dicts ((List.range args.vruns).map iter)) := by
  unfold validate
  rw [validateAux_valid args poison_delta val_max_epoch iter h args.vruns 0,
    ← List.range_eq_range']

/-- Counting over a constant-body flat map. -/
theorem countP_flatMap_const {A : Type} (p : A → Bool) (L : List Nat)
    (es : List A) :
    ((L.flatMap fun _ => es).countP p) = L.length * es.countP p := by
  induction L with
  | nil => simp
  | cons x xs ih =>
    simp only [List.flatMap_cons, List.countP_append, ih, List.length_cons]
    ring

/-- Each supported-scenario loop body invokes `_iterate` exactly once. -/
theorem countP_validateRunEvents (args : Args) (poison_delta : PoisonDelta)
    (val_max_epoch : Option Nat) :
    (validateRunEvents args poison_delta val_max_epoch).countP isIterateEvent = 1 := by
  unfold validateRunEvents
  split <;> rfl

/-- Reading every position of a list back through `getD` over its range
of indices reproduces the list. -/
theorem map_getD_range (l : List String) (d : String) :
    (List.range l.length).map (fun i => l.getD i d) = l := by
  induction l with
  | nil => rfl
  | cons x xs ih =>
    rw [List.length_cons, List.range_succ_eq_map, List.map_cons, List.map_map]
    have hfun : ((fun i => (x :: xs).getD i d) ∘ Nat.succ) =
        fun i => xs.getD i d := rfl
    rw [List.getD_cons_zero, hfun, ih]

/-- `average_dicts` on a non-empty list with matching key lists: the
key-wise mean, keyed by the head's keys. -/
theorem average_dicts_cons (s : Stats) (rest : List Stats)
    (h : ∀ t ∈ rest, keyList t = keyList s) :
    average_dicts (s :: rest) =
      Except.ok ((List.range s.length).map fun i =>
        ((keyList s).getD i "", meanAt (s :: rest) i)) := by
  simp only [average_dicts]
  rw [if_pos h]

/-- `average_dicts` over the statistics of runs `0 … m` when all runs
report the same key list. -/
theorem average_dicts_range (iter : Nat → Stats) (m : Nat)
    (hkeys : ∀ r, keyList (iter r) = keyList (iter 0)) :
    average_dicts ((List.range (m + 1)).map iter) =
      Except.ok ((List.range (iter 0).length).map fun i =>
        ((keyList (iter 0)).getD i "",
         meanAt ((List.range (m + 1)).map iter) i)) := by
  have hsplit : (List.range (m + 1)).map iter =
      iter 0 :: (List.range m).map fun r => iter (r + 1) := by
    rw [List.range_succ_eq_map, List.map_cons, List.map_map]
    rfl
  rw [hsplit]
  refine average_dicts_cons (iter 0) _ ?_
  intro t ht
  obtain ⟨r, _, rfl⟩ := List.mem_map.mp ht
  exact hkeys (r + 1)

/-- The mean at position `i` over the statistics of runs `0 … K-1`. -/
theorem meanAt_map_range (iter : Nat → Stats) (K i : Nat) :
    meanAt ((List.range K).map iter) i =
      ((List.range K).map fun r => valueAt (iter r) i).sum / (K : Rat) := by
  have h : ((fun d => valueAt d i) ∘ iter) = fun r => valueAt (iter r) i := rfl
  simp [meanAt, List.map_map, h]

/-- The value of the averaged dictionary at an in-range position. -/
theorem valueAt_mean_map (s : Stats) (g : Nat → Rat) (i : Nat)
    (hi : i < s.length) :
    valueAt ((List.range s.length).map fun j => ((keyList s).getD j "", g j)) i
      = g i := by
  rw [valueAt, List.getElem?_map, List.getElem?_range hi]
  rfl

/-- The key list of the averaged dictionary is the head's key list. -/
theorem keyList_mean_map (s : Stats) (g : Nat → Rat) :
    keyList ((List.range s.length).map fun i => ((keyList s).getD i "", g i)) =
      keyList s := by
  have hlen : s.length = (keyList s).length := by simp [keyList]
  rw [keyList, List.map_map]
  have hcomp : (Prod.fst ∘ fun i => ((keyList s).getD i "", g i)) =
      fun i => (keyList s).getD i "" := rfl
  rw [hcomp, hlen, map_getD_range]

/-- C2: for scenario from-scratch or transfer and configured run count
`vruns = K ≥ 1`, `validate` performs the scenario-dependent re-derivation
followed by one `_iterate` call in each of exactly K loop bodies, and
returns the dictionary whose keys are those of the per-run statistics and
whose value at each position is the arithmetic mean of the K per-run
values. -/
theorem validate_iterates_K_and_averages (args : Args)
    (poison_delta : PoisonDelta) (val_max_epoch : Option Nat)
    (iter : Nat → Stats)
    (hs : args.scenario = "from-scratch" ∨ args.scenario = "transfer")
    (hp : 0 < args.vruns)
    (hkeys : ∀ r, keyList (iter r) = keyList (iter 0)) :
    (validate args poison_delta val_max_epoch iter).1 =
      (List.range args.vruns).flatMap
        (fun _ => validateRunEvents args poison_delta val_max_epoch) ∧
    ((validate args poison_delta val_max_epoch iter).1.countP isIterateEvent)
      = args.vruns ∧
    ∃ a, (validate args poison_delta val_max_epoch iter).2 = Except.ok a ∧
      keyList a = keyList (iter 0) ∧
      ∀ i, i < (iter 0).length →
        valueAt a i =
          ((List.range args.vruns).map fun r => valueAt (iter r) i).sum /
            (args.vruns : Rat) := by
  have hv := validate_valid args poison_delta val_max_epoch iter hs
  obtain ⟨m, hm⟩ : ∃ m, args.vruns = m + 1 :=
    ⟨args.vruns - 1, (Nat.succ_pred_eq_of_pos hp).symm⟩
  refine ⟨by rw [hv], ?_, ?_⟩
  · rw [hv]
    simp [countP_flatMap_const, countP_validateRunEvents]
  · refine ⟨(List.range (iter 0).length).map fun i =>
      ((keyList (iter 0)).getD i "",
       meanAt ((List.range args.vruns).map iter) i), ?_, ?_, ?_⟩
    · rw [hv]
      show average_dicts ((List.range args.vruns).map iter) = _
      rw [hm]
      exact average_dicts_range iter m hkeys
    · exact keyList_mean_map (iter 0) _
    · intro i hi
      rw [valueAt_mean_map (iter 0) _ i hi, meanAt_map_range]

/-- C2 witness: two from-scratch validation runs reporting losses 0 and 1
average to 1/2, with two `_iterate` invocations in the trace. -/
theorem validate_iterates_K_and_averages_witness :
    (argsFS.scenario = "from-scratch" ∨ argsFS.scenario = "transfer") ∧
    0 < argsFS.vruns ∧
    ((validate argsFS (PoisonDelta.brewed 0) none iterEx).1 =
      (List.range argsFS.vruns).flatMap
        (fun _ => validateRunEvents argsFS (PoisonDelta.brewed 0) none) ∧
    ((validate argsFS (PoisonDelta.brewed 0) none iterEx).1.countP isIterateEvent)
      = argsFS.vruns ∧
    ∃ a, (validate argsFS (PoisonDelta.brewed 0) none iterEx).2 = Except.ok a ∧
      keyList a = keyList (iterEx 0) ∧
      ∀ i, i < (iterEx 0).length →
        valueAt a i =
          ((List.range argsFS.vruns).map fun r => valueAt (iterEx r) i).sum /
            (argsFS.vruns : Rat)) :=
  ⟨Or.inl rfl, by decide,
   validate_iterates_K_and_averages argsFS (PoisonDelta.brewed 0) none iterEx
     (Or.inl rfl) (by decide) (fun _ => rfl)⟩

end SpongeVictim
